import Mathlib

/-!
Verification development for the news-search CLI.

The repository's logic lives in two modules:
* format.ts — presenter helpers: relative timestamps (timeAgo) and greedy
  word wrapping (wordWrap);
* search.ts — query builders (buildPostQuery, buildNewsQuery), result
  normalization (news stories, posts, author lookup) and the search
  orchestrator (searchNews).

This file gives a shallow embedding of those functions and proves the
specified properties about them.  External effects are modelled
explicitly: the API client is a pair of functions returning either a
response value or a thrown error message (Except), Date.now and
timestamp parsing/printing are passed in as parameters, and JS numbers
that are always integral counters are modelled as Nat/Int.
-/

namespace NewsSearch

/-! ### format.ts: timeAgo -/

/-- Embedding of timeAgo from format.ts.  The external pieces are the
clock (now, modelling Date.now()) and the timestamp parser (parse,
modelling new Date(iso).getTime()); both produce epoch milliseconds.
The empty string is the only falsy value of the isoDate parameter, and
Math.floor on an exact quotient of integers is floor division
(Int.fdiv). -/
def timeAgo (parse : String → Int) (now : Int) (isoDate : String) : String :=
  if isoDate = "" then ""
  else
    let diff := now - parse isoDate
    let mins := Int.fdiv diff 60000
    if mins < 60 then toString mins ++ "m ago"
    else
      let hours := Int.fdiv mins 60
      if hours < 24 then toString hours ++ "h ago"
      else
        let days := Int.fdiv hours 24
        toString days ++ "d ago"

/-! ### format.ts: wordWrap -/

/-- State machine underlying the JS call text.split followed by the
regular expression matching runs of whitespace: the second argument is
none while inside a separator run and some cur while accumulating a
token (characters in reverse order).  Splitting keeps the empty tokens
that JS String.prototype.split produces at the start and end of the
input when it begins or ends with whitespace, and on the empty input. -/
def splitWSCore : List Char → Option (List Char) → List (List Char)
  | [], none => [[]]
  | [], some cur => [cur.reverse]
  | c :: cs, none =>
    if c.isWhitespace then splitWSCore cs none
    else splitWSCore cs (some [c])
  | c :: cs, some cur =>
    if c.isWhitespace then cur.reverse :: splitWSCore cs none
    else splitWSCore cs (some (c :: cur))

/-- Embedding of the word splitter used by wordWrap in format.ts. -/
def splitWS (text : String) : List String :=
  (splitWSCore text.toList (some [])).map (fun cs => String.mk cs)

/-- Loop of wordWrap from format.ts, as recursion over the word list
with the accumulator current; the pushed lines become the head of the
returned list. -/
def wrapGo (width : Nat) : List String → String → List String
  | [], current => if current ≠ "" then [current] else []
  | word :: words, current =>
    if current.length + word.length + 1 > width then
      current :: wrapGo width words word
    else
      wrapGo width words (if current ≠ "" then current ++ " " ++ word else word)

/-- Embedding of wordWrap from format.ts. -/
def wordWrap (text : String) (width : Nat) : List String :=
  wrapGo width (splitWS text) ""

/-- Greedy wrapping as the specification words it, for refinement
comparison only: a separator is counted only when the accumulated line
is nonempty, so a new line starts exactly when adding the next word
with its separator would make the current line exceed the width. -/
def wrapGoClaimed (width : Nat) : List String → String → List String
  | [], current => if current ≠ "" then [current] else []
  | word :: words, current =>
    if current = "" then wrapGoClaimed width words word
    else if current.length + word.length + 1 > width then
      current :: wrapGoClaimed width words word
    else
      wrapGoClaimed width words (current ++ " " ++ word)

/-- Word wrapping as the specification words it, for refinement
comparison only. -/
def wordWrapClaimed (text : String) (width : Nat) : List String :=
  wrapGoClaimed width (splitWS text) ""

/-! ### search.ts: data model -/

/-- Embedding of the SearchParams interface from search.ts. -/
structure SearchParams where
  queries : List String
  days : Nat
  max : Nat
  lang : String
  raw : Bool
  posts : Bool

/-- Embedding of the NewsResult interface from search.ts. -/
structure NewsResult where
  id : String
  headline : String
  summary : String
  hook : String
  category : String
  keywords : List String
  updatedAt : String
deriving DecidableEq

/-- Embedding of the PostResult interface from search.ts.  The three
engagement counters are non-negative integral JS numbers, modelled as
Nat. -/
structure PostResult where
  id : String
  text : String
  authorId : String
  authorName : String
  authorUsername : String
  verified : Bool
  createdAt : String
  likes : Nat
  reposts : Nat
  replies : Nat
  url : String
deriving DecidableEq

/-- Embedding of the SearchOutput interface from search.ts. -/
structure SearchOutput where
  query : String
  news : List NewsResult
  posts : List PostResult
  errors : List String
deriving DecidableEq

/-- A news story record as the news endpoint returns it; every field the
code reads defensively is optional.  The lastUpdatedAtMs field carries
epoch milliseconds as a string (the code applies Number to it before
building a Date); its JS truthiness test treats the empty string as
absent. -/
structure Story where
  restId : Option String
  name : Option String
  summary : Option String
  hook : Option String
  category : Option String
  keywords : Option (List String)
  lastUpdatedAtMs : Option String
deriving DecidableEq

/-- Shape of a response of the news endpoint.  Error payloads are
modelled by their JSON serialization, which is the only view the code
takes of them. -/
structure NewsResponse where
  errors : Option (List String)
  data : Option (List Story)

/-- The public_metrics object of a returned post; each counter is
optional. -/
structure PublicMetrics where
  like_count : Option Nat
  retweet_count : Option Nat
  reply_count : Option Nat
deriving DecidableEq

/-- A post record as the post-search endpoint returns it. -/
structure Tweet where
  id : Option String
  text : Option String
  authorId : Option String
  createdAt : Option String
  publicMetrics : Option PublicMetrics
deriving DecidableEq

/-- An included user record: id, name and username are required by the
API schema, verified is optional. -/
structure UserRec where
  id : String
  name : String
  username : String
  verified : Option Bool
deriving DecidableEq

/-- Shape of a response of the post-search endpoint; includes models
the users array reached as includes dot users. -/
structure PostResponse where
  errors : Option (List String)
  data : Option (List Tweet)
  includes : Option (List UserRec)

/-- The external API client: each endpoint call either returns a
response or throws, and the code only reads the thrown value's message
string. -/
structure Client where
  news : String → Except String NewsResponse
  posts : String → Except String PostResponse

/-! ### search.ts: query builders -/

/-- Reference rendering of the JS Array join with a separator, used to
state the specification's descriptions of the builders. -/
def joinSep (sep : String) : List String → String
  | [] => ""
  | [q] => q
  | q :: qs => q ++ sep ++ joinSep sep qs

/-- The combined expression computed at the top of buildPostQuery in
search.ts: a single term is used verbatim, otherwise every term is
wrapped in parentheses and the results are joined with OR. -/
def combineTerms (queries : List String) : String :=
  if queries.length = 1 then queries.headD ""
  else String.intercalate " OR " (queries.map (fun q => "(" ++ q ++ ")"))

/-- The fixed filter list of buildPostQuery in search.ts. -/
def postFilters (lang : String) : List String :=
  ["-is:retweet", "-is:reply", "has:links", "-is:nullcast", "lang:" ++ lang]

/-- Embedding of buildPostQuery from search.ts. -/
def buildPostQuery (queries : List String) (lang : String) (raw : Bool) : String :=
  let combined := combineTerms queries
  if raw then combined
  else combined ++ " " ++ String.intercalate " " (postFilters lang)

/-- Embedding of buildNewsQuery from search.ts. -/
def buildNewsQuery (queries : List String) : String :=
  String.intercalate " OR " queries

/-! ### search.ts: result normalization -/

/-- Normalization of one news story, as performed in the loop over
newsResponse.data in searchNews.  The external conversion of an
epoch-milliseconds value to an ISO-8601 string (Number, Date and
toISOString) is passed in as isoOfMs. -/
def normalizeStory (isoOfMs : String → String) (story : Story) : NewsResult :=
  { id := story.restId.getD ""
    headline := story.name.getD ""
    summary := story.summary.getD ""
    hook := story.hook.getD ""
    category := story.category.getD ""
    keywords := story.keywords.getD []
    updatedAt :=
      match story.lastUpdatedAtMs with
      | some ms => if ms ≠ "" then isoOfMs ms else ""
      | none => "" }

/-- The value stored in the userMap for one author. -/
structure UserInfo where
  name : String
  username : String
  verified : Bool
deriving DecidableEq

/-- Lookup in the userMap that searchNews builds from the included user
records; a later record with the same id overwrites an earlier one,
as with Map.set. -/
def lookupUser (users : List UserRec) (authorId : String) : Option UserInfo :=
  users.foldl
    (fun acc user =>
      if user.id = authorId then
        some ⟨user.name, user.username, user.verified.getD false⟩
      else acc)
    none

/-- Normalization of one returned post, as performed in the loop over
postResponse.data in searchNews.  The permalink embeds the author
handle when the looked-up user exists and has a nonempty (truthy)
username, and otherwise falls back to the id-only form. -/
def normalizeTweet (users : List UserRec) (tweet : Tweet) : PostResult :=
  let tweetId := tweet.id.getD ""
  let authorId := tweet.authorId.getD ""
  let user := lookupUser users authorId
  let metrics := tweet.publicMetrics
  { id := tweetId
    text := tweet.text.getD ""
    authorId := authorId
    authorName := (user.map UserInfo.name).getD ""
    authorUsername := (user.map UserInfo.username).getD ""
    verified := (user.map UserInfo.verified).getD false
    createdAt := tweet.createdAt.getD ""
    likes := (metrics.bind PublicMetrics.like_count).getD 0
    reposts := (metrics.bind PublicMetrics.retweet_count).getD 0
    replies := (metrics.bind PublicMetrics.reply_count).getD 0
    url :=
      match user with
      | some u =>
        if u.username ≠ "" then
          "https://x.com/" ++ u.username ++ "/status/" ++ tweetId
        else "https://x.com/i/status/" ++ tweetId
      | none => "https://x.com/i/status/" ++ tweetId }

/-! ### search.ts: local engagement ranking -/

/-- The weighted engagement score of the local ranking in searchNews. -/
def engagementScore (p : PostResult) : Nat :=
  p.likes * 2 + p.reposts * 3 + p.replies

/-- Order relation realized by the comparator passed to the JS sort:
a may precede b exactly when the score of b does not exceed the score
of a (descending by score). -/
def engRel (a b : PostResult) : Prop :=
  engagementScore b ≤ engagementScore a

instance : DecidableRel engRel := fun a b =>
  inferInstanceAs (Decidable (engagementScore b ≤ engagementScore a))

instance : IsTotal PostResult engRel :=
  ⟨fun a b => (Nat.le_total (engagementScore b) (engagementScore a)).imp id id⟩

instance : IsTrans PostResult engRel :=
  ⟨fun _ _ _ hab hbc => Nat.le_trans hbc hab⟩

/-- Embedding of the sort call in searchNews.  Array.prototype.sort is
required to be stable (ES2019), and the result of a stable sort under a
total preorder comparator is unique, so the call is modelled by a
stable insertion sort under engRel. -/
def sortPosts (posts : List PostResult) : List PostResult :=
  List.insertionSort engRel posts

/-! ### search.ts: searchNews orchestration -/

/-- Step 1 of searchNews: the news lookup.  Returns the normalized
stories together with the error strings that step pushes.  A thrown
failure yields no stories and the fallback notice; a returned response
contributes one stringified entry per reported error and the normalized
data in response order. -/
def newsStep (isoOfMs : String → String) (client : Client) (params : SearchParams) :
    List NewsResult × List String :=
  match client.news (buildNewsQuery params.queries) with
  | .error e => ([], ["News search failed: " ++ e ++ ". Falling back to post search."])
  | .ok resp =>
    let errs :=
      match resp.errors with
      | some es =>
        if 0 < es.length then es.map (fun e => "News API error: " ++ e) else []
      | none => []
    ((resp.data.getD []).map (normalizeStory isoOfMs), errs)

/-- Step 2 of searchNews: the post lookup.  Returns the normalized,
locally ranked posts together with the error strings that step pushes.
The sort runs only inside the branch that has response data, but with
no data the post list is empty either way. -/
def postStep (client : Client) (params : SearchParams) :
    List PostResult × List String :=
  match client.posts (buildPostQuery params.queries params.lang params.raw) with
  | .error e => ([], ["Post search failed: " ++ e])
  | .ok resp =>
    let errs :=
      match resp.errors with
      | some es =>
        if 0 < es.length then es.map (fun e => "Posts API error: " ++ e) else []
      | none => []
    let users := resp.includes.getD []
    match resp.data with
    | some tweets => (sortPosts (tweets.map (normalizeTweet users)), errs)
    | none => ([], errs)

/-- Embedding of searchNews from search.ts.  The two endpoint calls are
sequential; the post step runs exactly under the guard of step 2, and
the error strings of the two steps are accumulated in push order. -/
def searchNews (isoOfMs : String → String) (client : Client) (params : SearchParams) :
    SearchOutput :=
  let np := newsStep isoOfMs client params
  let news := np.1
  let runPosts := params.posts || news.length == 0
  let pp := if runPosts then postStep client params else ([], [])
  { query := String.intercalate " + " params.queries
    news := news
    posts := pp.1
    errors := np.2 ++ pp.2 }

/-- The guard of step 2 of searchNews: the post-search path executes
exactly when the posts flag is set or step 1 yielded zero stories. -/
def postSearchInvoked (isoOfMs : String → String) (client : Client)
    (params : SearchParams) : Bool :=
  params.posts || (newsStep isoOfMs client params).1.length == 0

/-- Response-level statement that the news lookup yielded zero stories:
the call threw, or the response carried no data array, or the data
array was empty. -/
def newsLookupZero (client : Client) (params : SearchParams) : Bool :=
  match client.news (buildNewsQuery params.queries) with
  | .error _ => true
  | .ok resp => (resp.data.getD []).isEmpty

/-! ### Theorems: query builders -/

lemma joinSep_cons_append (sep x y : String) (as : List String) :
    joinSep sep ((x ++ y) :: as) = x ++ joinSep sep (y :: as) := by
  cases as with
  | nil => rfl
  | cons a as => simp [joinSep, String.append_assoc]

lemma intercalate_go_eq_joinSep (sep : String) :
    ∀ (as : List String) (acc : String),
      String.intercalate.go acc sep as = joinSep sep (acc :: as)
  | [], acc => rfl
  | a :: as, acc => by
    rw [String.intercalate.go, intercalate_go_eq_joinSep sep as (acc ++ sep ++ a)]
    rw [String.append_assoc acc sep a]
    rw [joinSep_cons_append sep acc (sep ++ a) as]
    rw [joinSep_cons_append sep sep a as]
    cases as <;> simp [joinSep, String.append_assoc]

lemma intercalate_eq_joinSep (sep : String) (l : List String) :
    String.intercalate sep l = joinSep sep l := by
  cases l with
  | nil => rfl
  | cons a as => exact intercalate_go_eq_joinSep sep as a

/-- C4: for a nonempty term list, the combined expression of
buildPostQuery is the single term verbatim when there is exactly one
term (no parentheses added), and otherwise each term wrapped in
parentheses, joined with the OR separator in input order. -/
theorem combineTerms_verbatim_or_parenthesized (queries : List String)
    (hne : queries ≠ []) :
    (∀ q, queries = [q] → combineTerms queries = q) ∧
    (2 ≤ queries.length →
      combineTerms queries =
        joinSep " OR " (queries.map (fun q => "(" ++ q ++ ")"))) := by
  constructor
  · rintro q rfl
    simp [combineTerms]
  · intro h2
    have hlen : queries.length ≠ 1 := by omega
    rw [combineTerms, if_neg hlen, intercalate_eq_joinSep]

/-- Witness for C4 at a concrete two-term list. -/
theorem combineTerms_verbatim_or_parenthesized_witness :
    combineTerms ["gold", "silver"] = "(gold) OR (silver)" := by
  have h :=
    (combineTerms_verbatim_or_parenthesized ["gold", "silver"] (by decide)).2
      (by decide)
  rw [h]
  rfl

/-- C5: with the raw flag set, buildPostQuery returns the combined term
expression unmodified; otherwise it appends exactly the five
space-separated filter tokens, in the fixed order: exclude reposts,
exclude replies, require a link, exclude promotion-only content,
require the given language code. -/
theorem buildPostQuery_raw_and_filters (queries : List String) (lang : String) :
    buildPostQuery queries lang true = combineTerms queries ∧
    buildPostQuery queries lang false =
      combineTerms queries ++ " " ++
        joinSep " "
          ["-is:retweet", "-is:reply", "has:links", "-is:nullcast",
           "lang:" ++ lang] := by
  refine ⟨rfl, ?_⟩
  rw [buildPostQuery, if_neg (by simp), intercalate_eq_joinSep]
  rfl

/-- C6: buildNewsQuery joins the terms with the OR separator
unconditionally; the join adds no parentheses and no filter tokens for
any term count, and the function takes no raw flag at all. -/
theorem buildNewsQuery_plain_join (queries : List String) :
    buildNewsQuery queries = joinSep " OR " queries :=
  intercalate_eq_joinSep " OR " queries

/-! ### Theorems: timeAgo -/

/-- C8: for a nonempty timestamp lying n milliseconds in the past, the
relative-age string is computed by floor division: below 60 minutes it
renders the floor of elapsed minutes with the m suffix, below 24 hours
the floor of elapsed hours with the h suffix, and otherwise the floor
of elapsed days with the d suffix. -/
theorem timeAgo_floor_rendering (parse : String → Int) (now : Int) (iso : String)
    (n : Nat) (hiso : iso ≠ "") (hdiff : now - parse iso = (n : Int)) :
    (n < 3600000 → timeAgo parse now iso = toString (n / 60000) ++ "m ago") ∧
    (3600000 ≤ n → n < 86400000 →
      timeAgo parse now iso = toString (n / 3600000) ++ "h ago") ∧
    (86400000 ≤ n → timeAgo parse now iso = toString (n / 86400000) ++ "d ago") := by
  have hmins : Int.fdiv ((n : Nat) : Int) 60000 = ((n / 60000 : Nat) : Int) :=
    (Int.ofNat_fdiv n 60000).symm
  have hhours : Int.fdiv ((n / 60000 : Nat) : Int) 60 = ((n / 3600000 : Nat) : Int) := by
    have h := (Int.ofNat_fdiv (n / 60000) 60).symm
    rw [Nat.div_div_eq_div_mul] at h
    norm_num at h
    exact_mod_cast h
  have hdays : Int.fdiv ((n / 3600000 : Nat) : Int) 24 = ((n / 86400000 : Nat) : Int) := by
    have h := (Int.ofNat_fdiv (n / 3600000) 24).symm
    rw [Nat.div_div_eq_div_mul] at h
    norm_num at h
    exact_mod_cast h
  rw [timeAgo, if_neg hiso]
  simp only [hdiff, hmins, hhours, hdays]
  refine ⟨?_, ?_, ?_⟩
  · intro h
    rw [if_pos]
    · rfl
    · have : n / 60000 < 60 := (Nat.div_lt_iff_lt_mul (by norm_num)).2 (by omega)
      exact_mod_cast this
  · intro h1 h2
    rw [if_neg, if_pos]
    · rfl
    · have : n / 3600000 < 24 := (Nat.div_lt_iff_lt_mul (by norm_num)).2 (by omega)
      exact_mod_cast this
    · have : ¬ (n / 60000 < 60) := by
        rw [Nat.div_lt_iff_lt_mul (by norm_num)]
        omega
      simp only [not_lt] at this ⊢
      exact_mod_cast this
  · intro h
    rw [if_neg, if_neg]
    · rfl
    · have : ¬ (n / 3600000 < 24) := by
        rw [Nat.div_lt_iff_lt_mul (by norm_num)]
        omega
      simp only [not_lt] at this ⊢
      exact_mod_cast this
    · have : ¬ (n / 60000 < 60) := by
        rw [Nat.div_lt_iff_lt_mul (by norm_num)]
        omega
      simp only [not_lt] at this ⊢
      exact_mod_cast this

/-- Witness for C8: 30 minutes, 90 minutes and 50 hours in the past
render as 30m, 1h and 2d respectively. -/
theorem timeAgo_floor_rendering_witness :
    timeAgo (fun _ => 0) 1800000 "t" = "30m ago" ∧
    timeAgo (fun _ => 0) 5400000 "t" = "1h ago" ∧
    timeAgo (fun _ => 0) 180000000 "t" = "2d ago" := by
  refine ⟨?_, ?_, ?_⟩
  · have h := timeAgo_floor_rendering (fun _ => 0) 1800000 "t" 1800000
      (by decide) (by decide)
    rw [h.1 (by norm_num)]
    rfl
  · have h := timeAgo_floor_rendering (fun _ => 0) 5400000 "t" 5400000
      (by decide) (by decide)
    rw [h.2.1 (by norm_num) (by norm_num)]
    rfl
  · have h := timeAgo_floor_rendering (fun _ => 0) 180000000 "t" 180000000
      (by decide) (by decide)
    rw [h.2.2 (by norm_num)]
    rfl

/-! ### Theorems: wordWrap -/

lemma wrapGo_line_bound (width : Nat) (allW : List String) :
    ∀ (ws : List String) (cur : String), ws ⊆ allW →
      (cur.length ≤ width ∨ cur ∈ allW) →
      ∀ line ∈ wrapGo width ws cur, line.length ≤ width ∨ line ∈ allW := by
  intro ws
  induction ws with
  | nil =>
    intro cur _ hcur line hline
    simp only [wrapGo] at hline
    split at hline
    · rcases List.mem_singleton.mp hline with rfl
      exact hcur
    · simp at hline
  | cons w ws ih =>
    intro cur hsub hcur line hline
    have hw : w ∈ allW := hsub (List.mem_cons_self w ws)
    have hsub' : ws ⊆ allW := fun x hx => hsub (List.mem_cons_of_mem w hx)
    simp only [wrapGo] at hline
    split at hline
    · rcases List.mem_cons.mp hline with rfl | hline
      · exact hcur
      · exact ih w hsub' (Or.inr hw) line hline
    · rename_i hcond
      have hle : cur.length + w.length + 1 ≤ width := by omega
      refine ih _ hsub' ?_ line hline
      by_cases hc : cur = ""
      · subst hc
        have h0 : ("" : String).length = 0 := by decide
        left
        rw [if_neg (by simp)]
        omega
      · left
        rw [if_pos hc]
        simp only [String.length_append]
        have h1 : (" " : String).length = 1 := by decide
        omega

/-- C9 (amended): word wrapping is greedy word-packing whose break
condition always counts one separator character, even when the
accumulated line is empty: a new line starts exactly when the current
length plus the word length plus one exceeds the width.  Consequently
no output line exceeds the width except a word of the input placed
alone on its line unmodified (which happens once its length reaches the
width). -/
theorem wordWrap_greedy_amended (text : String) (width : Nat) :
    (∀ line ∈ wordWrap text width,
      line.length ≤ width ∨ (line ∈ splitWS text ∧ width ≤ line.length)) ∧
    (∀ (w : String) (ws : List String) (cur : String),
      wrapGo width (w :: ws) cur =
        if width < cur.length + w.length + 1 then cur :: wrapGo width ws w
        else wrapGo width ws (if cur = "" then w else cur ++ " " ++ w)) := by
  constructor
  · intro line hline
    have h0 : ("" : String).length = 0 := by decide
    have h := wrapGo_line_bound width (splitWS text) (splitWS text) ""
      (List.Subset.refl _) (Or.inl (by omega)) line hline
    rcases h with h | h
    · exact Or.inl h
    · by_cases hlen : line.length ≤ width
      · exact Or.inl hlen
      · exact Or.inr ⟨h, by omega⟩
  · intro w ws cur
    rw [wrapGo]
    by_cases hc : cur = ""
    · subst hc
      simp [gt_iff_lt]
    · simp [hc, gt_iff_lt]

/-- Counterexample for C9 as stated: on the single word of length
exactly the width, the claimed rule (no separator counted on an empty
accumulated line) packs the word onto the first line, but the code
emits an empty first line before it. -/
theorem wordWrap_greedy_counterexample :
    wordWrap "abcde" 5 = ["", "abcde"] ∧ wordWrapClaimed "abcde" 5 = ["abcde"] := by
  decide

/-- Witness for C9 (amended) at a concrete wrapped text and line. -/
theorem wordWrap_greedy_amended_witness :
    ("hello" : String).length ≤ 5 ∨
      ("hello" ∈ splitWS "hello world" ∧ 5 ≤ ("hello" : String).length) :=
  (wordWrap_greedy_amended "hello world" 5).1 "hello" (by decide)

/-- C10: when the first word of the text is at least as long as the
width, the break condition fires on the empty accumulator and the first
output line is the empty string. -/
theorem wordWrap_overwide_first_word (text : String) (width : Nat) (w : String)
    (ws : List String) (hsplit : splitWS text = w :: ws) (hw : width ≤ w.length) :
    ∃ rest, wordWrap text width = "" :: rest := by
  refine ⟨wrapGo width ws w, ?_⟩
  rw [wordWrap, hsplit, wrapGo, if_pos]
  have h0 : ("" : String).length = 0 := by decide
  omega

/-- Witness for C10 at a concrete width-length first word. -/
theorem wordWrap_overwide_first_word_witness :
    ∃ rest, wordWrap "abcde" 5 = "" :: rest :=
  wordWrap_overwide_first_word "abcde" 5 "abcde" [] (by decide) (by decide)


/-! ### Theorems: searchNews orchestration -/

lemma newsStep_length_eq_newsLookupZero (isoOfMs : String → String) (client : Client)
    (params : SearchParams) :
    ((newsStep isoOfMs client params).1.length == 0) = newsLookupZero client params := by
  rw [newsStep, newsLookupZero]
  cases hc : client.news (buildNewsQuery params.queries) with
  | error e => rfl
  | ok resp =>
    simp only []
    cases resp.data.getD [] <;> simp

lemma searchNews_news_def (isoOfMs : String → String) (client : Client)
    (params : SearchParams) :
    (searchNews isoOfMs client params).news = (newsStep isoOfMs client params).1 := by
  simp [searchNews]

lemma searchNews_posts_def (isoOfMs : String → String) (client : Client)
    (params : SearchParams) :
    (searchNews isoOfMs client params).posts =
      if postSearchInvoked isoOfMs client params then (postStep client params).1
      else [] := by
  rw [searchNews, postSearchInvoked]
  by_cases h : (params.posts || (newsStep isoOfMs client params).1.length == 0) = true
  · simp [h]
  · simp only [Bool.not_eq_true] at h
    simp [h]

lemma searchNews_errors_def (isoOfMs : String → String) (client : Client)
    (params : SearchParams) :
    (searchNews isoOfMs client params).errors =
      (newsStep isoOfMs client params).2 ++
        (if postSearchInvoked isoOfMs client params then (postStep client params).2
         else []) := by
  rw [searchNews, postSearchInvoked]
  by_cases h : (params.posts || (newsStep isoOfMs client params).1.length == 0) = true
  · simp [h]
  · simp only [Bool.not_eq_true] at h
    simp [h]


/-- C1: the post-search path of searchNews executes if and only if the
posts flag is set or the news lookup yielded zero stories (no data, an
empty data array, or a thrown news call); in particular, with at least
one story and the posts flag clear, the post-search endpoint is never
consulted. -/
theorem searchNews_post_path_iff (isoOfMs : String → String) (client : Client)
    (params : SearchParams) :
    (postSearchInvoked isoOfMs client params = true ↔
      params.posts = true ∨ newsLookupZero client params = true) ∧
    ((searchNews isoOfMs client params).posts =
      if postSearchInvoked isoOfMs client params then (postStep client params).1
      else []) ∧
    (newsLookupZero client params = false → params.posts = false →
      postSearchInvoked isoOfMs client params = false) := by
  have hz := newsStep_length_eq_newsLookupZero isoOfMs client params
  refine ⟨?_, searchNews_posts_def isoOfMs client params, ?_⟩
  · rw [postSearchInvoked, hz, Bool.or_eq_true]
  · intro h1 h2
    rw [postSearchInvoked, hz, h1, h2]
    rfl


/-- C2: searchNews is a total function into SearchOutput (the embedding
returns, never throws, for every client behaviour); a thrown news call
and a thrown post call each contribute their message to the error list,
every endpoint-reported error payload is stringified into the error
list, a news failure still lets the post step run, and the news results
of step 1 are returned unchanged whatever the post step does. -/
theorem searchNews_total_and_isolating (isoOfMs : String → String) (client : Client)
    (params : SearchParams) :
    (searchNews isoOfMs client params).news = (newsStep isoOfMs client params).1 ∧
    (searchNews isoOfMs client params).errors =
      (newsStep isoOfMs client params).2 ++
        (if postSearchInvoked isoOfMs client params then (postStep client params).2
         else []) ∧
    (∀ e, client.news (buildNewsQuery params.queries) = .error e →
      ("News search failed: " ++ e ++ ". Falling back to post search.")
          ∈ (searchNews isoOfMs client params).errors ∧
        postSearchInvoked isoOfMs client params = true) ∧
    (∀ e, postSearchInvoked isoOfMs client params = true →
      client.posts (buildPostQuery params.queries params.lang params.raw) = .error e →
      ("Post search failed: " ++ e) ∈ (searchNews isoOfMs client params).errors) ∧
    (∀ resp e, client.news (buildNewsQuery params.queries) = .ok resp →
      e ∈ resp.errors.getD [] →
      ("News API error: " ++ e) ∈ (searchNews isoOfMs client params).errors) ∧
    (∀ resp e, postSearchInvoked isoOfMs client params = true →
      client.posts (buildPostQuery params.queries params.lang params.raw) = .ok resp →
      e ∈ resp.errors.getD [] →
      ("Posts API error: " ++ e) ∈ (searchNews isoOfMs client params).errors) := by
  have herr := searchNews_errors_def isoOfMs client params
  refine ⟨searchNews_news_def isoOfMs client params, herr, ?_, ?_, ?_, ?_⟩
  · intro e he
    have hstep : newsStep isoOfMs client params =
        ([], ["News search failed: " ++ e ++ ". Falling back to post search."]) := by
      rw [newsStep, he]
    have hinv : postSearchInvoked isoOfMs client params = true := by
      rw [postSearchInvoked, hstep]
      simp
    refine ⟨?_, hinv⟩
    rw [herr, hstep]
    exact List.mem_append_left _ (List.mem_singleton.mpr rfl)
  · intro e hinv he
    have hstep : postStep client params = ([], ["Post search failed: " ++ e]) := by
      rw [postStep, he]
    rw [herr, hinv, if_pos rfl, hstep]
    exact List.mem_append_right _ (List.mem_singleton.mpr rfl)
  · intro resp e hok he
    rcases hes : resp.errors with _ | es
    · rw [hes] at he
      simp at he
    · rw [hes] at he
      have hlen : 0 < es.length := List.length_pos.mpr (by
        intro hnil
        rw [hnil] at he
        simp at he)
      have hstep : (newsStep isoOfMs client params).2 =
          es.map (fun e => "News API error: " ++ e) := by
        rw [newsStep, hok]
        simp [hes, hlen]
      rw [herr, hstep]
      exact List.mem_append_left _ (List.mem_map_of_mem _ he)
  · intro resp e hinv hok he
    rcases hes : resp.errors with _ | es
    · rw [hes] at he
      simp at he
    · rw [hes] at he
      have hlen : 0 < es.length := List.length_pos.mpr (by
        intro hnil
        rw [hnil] at he
        simp at he)
      have hstep : (postStep client params).2 =
          es.map (fun e => "Posts API error: " ++ e) := by
        rw [postStep, hok]
        cases hd : resp.data <;> simp [hes, hlen, hd]
      rw [herr, hinv, if_pos rfl, hstep]
      exact List.mem_append_right _ (List.mem_map_of_mem _ he)


lemma sortPosts_sorted (l : List PostResult) :
    List.Pairwise (fun a b => engagementScore b ≤ engagementScore a)
      (sortPosts l) :=
  List.sorted_insertionSort engRel l

lemma sortPosts_filter_score (l : List PostResult) (s : Nat) :
    (sortPosts l).filter (fun p => engagementScore p == s) =
      l.filter (fun p => engagementScore p == s) := by
  have hmem : ∀ a ∈ l.filter (fun p => engagementScore p == s),
      engagementScore a = s := by
    intro a ha
    have h := (List.mem_filter.mp ha).2
    exact beq_iff_eq.mp h
  have hpw : (l.filter (fun p => engagementScore p == s)).Pairwise engRel :=
    List.pairwise_of_forall_mem_list (fun a ha b hb => by
      rw [engRel, hmem a ha, hmem b hb])
  have hsub : List.Sublist (l.filter (fun p => engagementScore p == s)) (sortPosts l) :=
    List.sublist_insertionSort hpw (List.filter_sublist l)
  have hself : (l.filter (fun p => engagementScore p == s)).filter
      (fun p => engagementScore p == s) =
      l.filter (fun p => engagementScore p == s) :=
    List.filter_eq_self.mpr (fun a ha => (List.mem_filter.mp ha).2)
  have hsub2 : List.Sublist (l.filter (fun p => engagementScore p == s))
      ((sortPosts l).filter (fun p => engagementScore p == s)) := by
    have := hsub.filter (fun p => engagementScore p == s)
    rwa [hself] at this
  have hlen : ((sortPosts l).filter (fun p => engagementScore p == s)).length =
      (l.filter (fun p => engagementScore p == s)).length :=
    ((List.perm_insertionSort engRel l).filter _).length_eq
  exact (hsub2.eq_of_length hlen.symm).symm

/-- C3: the posts list of the output is sorted in descending order of
the engagement score two likes plus three reposts plus one reply, and
for every score value the posts carrying it appear in the same relative
order as in the normalized server response (the sort is stable). -/
theorem searchNews_posts_engagement_ranked (isoOfMs : String → String)
    (client : Client) (params : SearchParams) :
    List.Pairwise (fun a b => engagementScore b ≤ engagementScore a)
      (searchNews isoOfMs client params).posts ∧
    (∀ resp tweets, postSearchInvoked isoOfMs client params = true →
      client.posts (buildPostQuery params.queries params.lang params.raw) =
        .ok resp →
      resp.data = some tweets →
      ∀ s : Nat,
        ((searchNews isoOfMs client params).posts.filter
            (fun p => engagementScore p == s)) =
          ((tweets.map (normalizeTweet (resp.includes.getD []))).filter
            (fun p => engagementScore p == s))) := by
  have hposts := searchNews_posts_def isoOfMs client params
  constructor
  · rw [hposts]
    by_cases hinv : postSearchInvoked isoOfMs client params = true
    · rw [if_pos hinv]
      rw [postStep]
      cases hc : client.posts (buildPostQuery params.queries params.lang params.raw) with
      | error e => exact List.Pairwise.nil
      | ok resp =>
        cases hd : resp.data with
        | none => simp [hd]
        | some tweets =>
          simp only [hd]
          exact sortPosts_sorted _
    · rw [if_neg hinv]
      exact List.Pairwise.nil
  · intro resp tweets hinv hok hdata s
    have hstep : (postStep client params).1 =
        sortPosts (tweets.map (normalizeTweet (resp.includes.getD []))) := by
      rw [postStep, hok]
      simp [hdata]
    rw [hposts, if_pos hinv, hstep, sortPosts_filter_score]


lemma lookupUser_eq_none (users : List UserRec) (aid : String)
    (h : ∀ u ∈ users, u.id ≠ aid) : lookupUser users aid = none := by
  rw [lookupUser]
  induction users with
  | nil => rfl
  | cons u rest ih =>
    rw [List.foldl_cons, if_neg (h u (List.mem_cons_self u rest))]
    exact ih (fun v hv => h v (List.mem_cons_of_mem u hv))

/-- C7: normalization is total with defined fallbacks: optional story
and post fields absent from the record normalize to the empty string or
empty list, absent engagement counters normalize to zero, an author
missing from the included-users set yields empty name and handle, an
unverified flag and the id-only permalink, and a known author with a
nonempty handle yields the permalink embedding handle and post id. -/
theorem normalization_total_defaults (isoOfMs : String → String) (story : Story)
    (users : List UserRec) (tweet : Tweet) :
    (story.restId = none → (normalizeStory isoOfMs story).id = "") ∧
    (story.name = none → (normalizeStory isoOfMs story).headline = "") ∧
    (story.summary = none → (normalizeStory isoOfMs story).summary = "") ∧
    (story.hook = none → (normalizeStory isoOfMs story).hook = "") ∧
    (story.category = none → (normalizeStory isoOfMs story).category = "") ∧
    (story.keywords = none → (normalizeStory isoOfMs story).keywords = []) ∧
    (story.lastUpdatedAtMs = none → (normalizeStory isoOfMs story).updatedAt = "") ∧
    (tweet.text = none → (normalizeTweet users tweet).text = "") ∧
    (tweet.createdAt = none → (normalizeTweet users tweet).createdAt = "") ∧
    (tweet.publicMetrics = none →
      (normalizeTweet users tweet).likes = 0 ∧
      (normalizeTweet users tweet).reposts = 0 ∧
      (normalizeTweet users tweet).replies = 0) ∧
    ((∀ u ∈ users, u.id ≠ tweet.authorId.getD "") →
      (normalizeTweet users tweet).authorName = "" ∧
      (normalizeTweet users tweet).authorUsername = "" ∧
      (normalizeTweet users tweet).verified = false ∧
      (normalizeTweet users tweet).url =
        "https://x.com/i/status/" ++ tweet.id.getD "") ∧
    (∀ u, lookupUser users (tweet.authorId.getD "") = some u → u.username ≠ "" →
      (normalizeTweet users tweet).url =
        "https://x.com/" ++ u.username ++ "/status/" ++ tweet.id.getD "") := by
  refine ⟨?_, ?_, ?_, ?_, ?_, ?_, ?_, ?_, ?_, ?_, ?_, ?_⟩
  · intro h
    simp [normalizeStory, h]
  · intro h
    simp [normalizeStory, h]
  · intro h
    simp [normalizeStory, h]
  · intro h
    simp [normalizeStory, h]
  · intro h
    simp [normalizeStory, h]
  · intro h
    simp [normalizeStory, h]
  · intro h
    simp [normalizeStory, h]
  · intro h
    simp [normalizeTweet, h]
  · intro h
    simp [normalizeTweet, h]
  · intro h
    refine ⟨?_, ?_, ?_⟩ <;> simp [normalizeTweet, h]
  · intro h
    have hnone := lookupUser_eq_none users (tweet.authorId.getD "") h
    refine ⟨?_, ?_, ?_, ?_⟩ <;> simp [normalizeTweet, hnone]
  · intro u hu hname
    simp [normalizeTweet, hu, hname]


/-! ### Concrete fixtures for the witnesses -/

def demoStory : Story :=
  { restId := some "s1", name := some "Gold surges", summary := none,
    hook := none, category := none, keywords := none, lastUpdatedAtMs := none }

def demoParams : SearchParams :=
  { queries := ["gold"], days := 1, max := 10, lang := "en",
    raw := false, posts := false }

def demoNewsClient : Client :=
  { news := fun _ => .ok { errors := none, data := some [demoStory] }
    posts := fun _ => .error "network down" }

def demoFailClient : Client :=
  { news := fun _ => .error "boom"
    posts := fun _ => .ok { errors := some ["perr"], data := none, includes := none } }

def demoMetrics (a b c : Nat) : PublicMetrics :=
  { like_count := some a, retweet_count := some b, reply_count := some c }

def demoTweet1 : Tweet :=
  { id := some "t1", text := some "gold a", authorId := some "u1",
    createdAt := none, publicMetrics := some (demoMetrics 10 0 0) }

def demoTweet2 : Tweet :=
  { id := some "t2", text := some "gold b", authorId := some "u1",
    createdAt := none, publicMetrics := some (demoMetrics 0 5 0) }

def demoTweet3 : Tweet :=
  { id := some "t3", text := some "gold c", authorId := some "u1",
    createdAt := none, publicMetrics := some (demoMetrics 1 1 100) }

def demoPostResponse : PostResponse :=
  { errors := none, data := some [demoTweet1, demoTweet2, demoTweet3],
    includes := some [] }

def demoPostsClient : Client :=
  { news := fun _ => .ok { errors := none, data := some [] }
    posts := fun _ => .ok demoPostResponse }

def emptyStory : Story :=
  { restId := none, name := none, summary := none, hook := none,
    category := none, keywords := none, lastUpdatedAtMs := none }

def emptyTweet : Tweet :=
  { id := none, text := none, authorId := none, createdAt := none,
    publicMetrics := none }

def demoUser : UserRec :=
  { id := "u1", name := "Alice", username := "alice", verified := some true }

def authoredTweet : Tweet :=
  { id := some "t9", text := some "hi", authorId := some "u1",
    createdAt := none, publicMetrics := none }

/-- Witness for C1: one returned story and a clear posts flag keep the
post-search path off. -/
theorem searchNews_post_path_iff_witness :
    postSearchInvoked (fun _ => "") demoNewsClient demoParams = false :=
  (searchNews_post_path_iff (fun _ => "") demoNewsClient demoParams).2.2 rfl rfl

/-- Witness for C2: a thrown news call lands in the error list and the
post step still runs. -/
theorem searchNews_total_and_isolating_witness :
    ("News search failed: " ++ "boom" ++ ". Falling back to post search.")
        ∈ (searchNews (fun _ => "") demoFailClient demoParams).errors ∧
      postSearchInvoked (fun _ => "") demoFailClient demoParams = true :=
  (searchNews_total_and_isolating (fun _ => "") demoFailClient demoParams).2.2.1
    "boom" rfl

/-- Witness for C3 at three concrete posts with scores 20, 15 and 105. -/
theorem searchNews_posts_engagement_ranked_witness :
    ((searchNews (fun _ => "") demoPostsClient demoParams).posts.filter
        (fun p => engagementScore p == 20)) =
      (([demoTweet1, demoTweet2, demoTweet3].map
          (normalizeTweet (demoPostResponse.includes.getD []))).filter
        (fun p => engagementScore p == 20)) :=
  (searchNews_posts_engagement_ranked (fun _ => "") demoPostsClient demoParams).2
    demoPostResponse [demoTweet1, demoTweet2, demoTweet3] rfl rfl rfl 20

/-- Witness for C7 at a fully empty story and tweet and at a tweet with
a known author handle. -/
theorem normalization_total_defaults_witness :
    (normalizeStory (fun _ => "") emptyStory).summary = "" ∧
    (normalizeTweet [] emptyTweet).likes = 0 ∧
    (normalizeTweet [] emptyTweet).authorUsername = "" ∧
    (normalizeTweet [] emptyTweet).url =
      "https://x.com/i/status/" ++ emptyTweet.id.getD "" ∧
    (normalizeTweet [demoUser] authoredTweet).url =
      "https://x.com/" ++ "alice" ++ "/status/" ++ authoredTweet.id.getD "" := by
  have h := normalization_total_defaults (fun _ => "") emptyStory [] emptyTweet
  have h11 := h.2.2.2.2.2.2.2.2.2.2.1 (by simp)
  have h2 := normalization_total_defaults (fun _ => "") emptyStory [demoUser]
    authoredTweet
  have h12 := h2.2.2.2.2.2.2.2.2.2.2.2 ⟨"Alice", "alice", true⟩ rfl (by decide)
  exact ⟨h.2.2.1 rfl, (h.2.2.2.2.2.2.2.2.2.1 rfl).1, h11.2.1, h11.2.2.2, h12⟩

end NewsSearch
